import Mathlib

/-!
Verification of the identity/challenge protocol layer of the trezor-agent
core against its specification.  Shallow embedding of
`src/trezor_agent/client.py` and `src/trezor_agent/__main__.py`:
byte strings are `List Nat` (each byte below 256 where it matters),
text strings are `List Char`, fallible Python code returns `Option` or
`Except`, and exceptions of any class are decode/lookup failures.
-/

/-- Text strings of the embedded program are lists of characters. -/
abbrev Str := List Char

/-- Conversion from Lean string literals to the embedded string type. -/
def str (s : String) : Str := s.toList

/-! ## Challenge decoder (client.py `_parse_ssh_blob`) -/

/-- Big-endian 32-bit recombination of four bytes, as done by
`struct.unpack` on a 4-byte frame-length header. -/
def be32 (a b c d : Nat) : Nat := ((a * 256 + b) * 256 + c) * 256 + d

/-- The four big-endian bytes of a 32-bit length, as written by a conforming
SSH client in front of each frame payload. -/
def encodeLen (n : Nat) : List Nat :=
  [n / 16777216 % 256, n / 65536 % 256, n / 256 % 256, n % 256]

/-- A wire-format frame: 4-byte big-endian length followed by the payload
(spec section 6, "SSH authentication challenge blob"). -/
def frame (p : List Nat) : List Nat := encodeLen p.length ++ p

/-- Modelled from the spec: `util.read_frame` (imported by client.py but not
under src/) reads a 4-byte big-endian unsigned length and then that many
payload bytes, failing (`ProtocolError`) when the length header or the
declared payload exceeds the remaining bytes.  Returns the payload and the
rest of the stream. -/
def read_frame : List Nat → Option (List Nat × List Nat)
  | a :: b :: c :: d :: rest =>
    if be32 a b c d ≤ rest.length then
      some (rest.take (be32 a b c d), rest.drop (be32 a b c d))
    else none
  | _ => none

/-- `io.BytesIO.read(1)` as used for the two fixed one-byte markers in
`_parse_ssh_blob`: consumes one byte when available, silently consumes
nothing at end of stream. -/
def read1 : List Nat → List Nat
  | [] => []
  | _ :: rest => rest

/-- Curve point and fingerprint recovered from the public-key frame. -/
structure PublicKeyInfo where
  curve_point : List Nat
  fingerprint : List Nat
deriving DecidableEq

/-- Modelled from the spec: `formats.parse_pubkey` (external collaborator,
spec section 4.2) recovers curve point and fingerprint from the public-key
frame payload; its internals are outside this core, so it is modelled as a
total record constructor over the payload. -/
def parse_pubkey (blob : List Nat) : PublicKeyInfo := ⟨blob, blob⟩

/-- The decoded challenge record (spec section 3). -/
structure Challenge where
  nonce : List Nat
  user : List Nat
  conn : List Nat
  auth : List Nat
  key_type : List Nat
  public_key : PublicKeyInfo
deriving DecidableEq

/-- `_parse_ssh_blob` from src/trezor_agent/client.py: six length-prefixed
frames in the fixed order nonce, [1-byte marker], user, connection-id,
auth-method, [1-byte marker], key-type, public-key-blob, followed by the
`assert not i.read()` check that no bytes remain.  `none` models any raised
decode exception. -/
def parse_ssh_blob (data : List Nat) : Option Challenge :=
  (read_frame data).bind fun s1 =>
  (read_frame (read1 s1.2)).bind fun s2 =>
  (read_frame s2.2).bind fun s3 =>
  (read_frame s3.2).bind fun s4 =>
  (read_frame (read1 s4.2)).bind fun s5 =>
  (read_frame s5.2).bind fun s6 =>
  if s6.2 = [] then
    some ⟨s1.1, s2.1, s3.1, s4.1, s5.1, parse_pubkey s6.1⟩
  else none

/-- The spec-side wire grammar (spec sections 3 and 6): a blob is well
formed when it is exactly the concatenation of the six frames and two
single marker bytes in the fixed order, with every frame length encodable
in the 4-byte header and zero trailing bytes. -/
def WellFormedBlob (data : List Nat) : Prop :=
  ∃ (nonce : List Nat) (m1 : Nat) (user conn auth : List Nat) (m2 : Nat)
    (kt pk : List Nat),
    nonce.length < 4294967296 ∧ user.length < 4294967296 ∧
    conn.length < 4294967296 ∧ auth.length < 4294967296 ∧
    kt.length < 4294967296 ∧ pk.length < 4294967296 ∧
    data = frame nonce ++
      m1 :: (frame user ++ (frame conn ++ (frame auth ++
        m2 :: (frame kt ++ frame pk))))

/-- `Client.sign_ssh_challenge` from src/trezor_agent/client.py: decodes the
challenge, logs a summary (the `log.info` line ascii-decodes the user field,
so a non-ascii user byte raises), then calls `self.device.sign(blob=blob)` —
the device receives only the blob — and returns the device's signature. -/
def sign_ssh_challenge (deviceSign : List Nat → List Nat)
    (blob : List Nat) : Option (List Nat) :=
  match parse_ssh_blob blob with
  | none => none
  | some msg =>
    if msg.user.all (fun x => x < 128) then some (deviceSign blob) else none

/-! ## Python interface model (client.py members vs __main__.py call sites) -/

/-- A Python callable: its attribute name and the parameter names it
accepts as keywords (excluding `self`). -/
structure PyCallable where
  name : String
  kwparams : List String
deriving DecidableEq

/-- The callables of src/trezor_agent/client.py, transcribed from the
source: `Client.__init__(self, device)`, `Client.get_public_key(self)`,
`Client.sign_ssh_challenge(self, blob)`, and the module-level function
`_parse_ssh_blob(data)`.  `string_to_identity` is not defined there. -/
def clientInterface : List PyCallable :=
  [⟨"__init__", ["device"]⟩,
   ⟨"get_public_key", []⟩,
   ⟨"sign_ssh_challenge", ["blob"]⟩,
   ⟨"_parse_ssh_blob", ["data"]⟩]

/-- The calls src/trezor_agent/__main__.py makes into the client layer,
transcribed from the source: `client_factory(curve=args.ecdsa_curve_name)`
(line 97), `conn.get_public_key(label=label)` (line 108),
`conn.sign_ssh_challenge(label=label, blob=blob, visual=now)` (line 89),
and `client.string_to_identity(label, identity_type=dict)` (line 18). -/
def orchestratorCalls : List (String × List String) :=
  [("__init__", ["curve"]),
   ("get_public_key", ["label"]),
   ("sign_ssh_challenge", ["label", "blob", "visual"]),
   ("string_to_identity", ["identity_type"])]

/-- A call site resolves against an interface when a member of that name
exists and accepts every keyword argument of the call. -/
def callResolves (iface : List PyCallable) (call : String × List String) :
    Bool :=
  match iface.find? (fun m => m.name == call.1) with
  | some m => call.2.all (fun k => m.kwparams.contains k)
  | none => false

/-- The keyword arguments `Client.sign_ssh_challenge` passes to
`self.device.sign` (src/trezor_agent/client.py line 46). -/
def deviceSignCallKwargs : List String := ["blob"]

/-! ## Identity (spec section 3) and Client construction -/

/-- Structured connection descriptor parsed from
`proto://[user@]host[:port][/path]` (spec section 3). -/
structure Identity where
  proto : Str
  user : Option Str
  host : Str
  port : Option Str
  path : Option Str
deriving DecidableEq

/-- Effect of `Client.__init__` (src/trezor_agent/client.py line 19) on the
identity carried by the device: `device.identity_dict['proto'] = 'ssh'`. -/
def clientInitIdentity (d : Identity) : Identity :=
  { d with proto := str "ssh" }

/-- Split a character list at the first occurrence of `c`, returning the
part before and the part after (the delimiter is dropped), like Python's
`s.split(c, 1)` when the delimiter occurs. -/
def splitFirstChar (c : Char) : Str → Option (Str × Str)
  | [] => none
  | x :: xs =>
    if x = c then some ([], xs)
    else
      match splitFirstChar c xs with
      | none => none
      | some (a, b) => some (x :: a, b)

/-- Split off the leading `proto://` scheme part of an identity string. -/
def splitScheme : Str → Option (Str × Str)
  | [] => none
  | ':' :: '/' :: '/' :: rest => some ([], rest)
  | c :: rest =>
    match splitScheme rest with
    | none => none
    | some (a, b) => some (c :: a, b)

/-- Modelled from the spec: `client.string_to_identity` is called by the
orchestrator but not defined in src/trezor_agent/client.py; per spec
section 4.1 it parses `scheme://[user@]host[:port][/path]` into an Identity,
where user, port and path are independently optional and parsing fails
(`FormatError`) when the mandatory host cannot be extracted. -/
def string_to_identity (s : Str) : Option Identity :=
  match splitScheme s with
  | none => none
  | some (proto, rest) =>
    let hp : Str × Option Str :=
      match splitFirstChar '/' rest with
      | none => (rest, none)
      | some (a, b) => (a, some ('/' :: b))
    let uh : Option Str × Str :=
      match splitFirstChar '@' hp.1 with
      | none => (none, hp.1)
      | some (u, r) => (some u, r)
    let hpo : Str × Option Str :=
      match splitFirstChar ':' uh.2 with
      | none => (uh.2, none)
      | some (h, p) => (h, some p)
    if hpo.1.isEmpty then none
    else some ⟨proto, uh.1, hpo.1, hpo.2, hp.2⟩

/-- `ssh_args` from src/trezor_agent/__main__.py: builds
`['ssh'] + args + [host]` where `args` holds `-p port` when a port is
present and `-l user` when a user is present, from the parsed identity. -/
def ssh_args (label : Str) : Option (List Str) :=
  match string_to_identity label with
  | none => none
  | some idn =>
    some (str "ssh" ::
      ((match idn.port with
        | some p => [str "-p", p]
        | none => []) ++
       (match idn.user with
        | some u => [str "-l", u]
        | none => []) ++
       [idn.host]))

/-! ## Git remote resolution (__main__.py `git_host`) -/

/-- Python whitespace characters removed by `str.strip()`. -/
def isPySpace (c : Char) : Bool :=
  c == ' ' || c == '\t' || c == '\n' || c == '\r' || c == '\u000B' ||
  c == '\u000C'

/-- Python's `str.strip()`: drop whitespace from both ends. -/
def pyStrip (l : Str) : Str :=
  ((l.dropWhile isPySpace).reverse.dropWhile isPySpace).reverse

/-- The values of the local git configuration entries whose key is
`remote.<name>.url`, modelling the `re.findall` over the output of
`git config --local --list` in src/trezor_agent/__main__.py line 76
(the configuration is taken as a list of key/value entries). -/
def gitMatches (cfg : List (Str × Str)) (name : Str) : List Str :=
  (cfg.filter (fun e => e.1 == str "remote." ++ name ++ str ".url")).map
    Prod.snd

/-- `git_host` from src/trezor_agent/__main__.py: requires exactly one
matching `remote.<name>.url` entry (raising `ValueError`, the spec's
`ConfigError`, otherwise), strips the value, splits it at the first `@` and
then the first `:` (raising when a delimiter is absent), and returns
`ssh://user@host/path`. -/
def git_host (cfg : List (Str × Str)) (name : Str) : Option Str :=
  match gitMatches cfg name with
  | [u] =>
    let url := pyStrip u
    match splitFirstChar '@' url with
    | none => none
    | some (user, rest) =>
      match splitFirstChar ':' rest with
      | none => none
      | some (host, path) =>
        some (str "ssh://" ++ user ++ '@' :: host ++ '/' :: path)
  | _ => none

/-! ## Orchestrator (__main__.py `run_agent` and `main`) -/

/-- Error kinds that propagate out of the orchestrator (spec section 7). -/
inductive CoreError
  | config
  | format
deriving DecidableEq

/-- Outcome of running the child process under the agent: it exited with a
status code, or the parent received an interrupt signal while serving. -/
inductive ProcResult
  | exited (code : Int)
  | interrupted
deriving DecidableEq

/-- The command value held by `run_agent`: an argument vector, or the shell
string taken from `os.environ['SHELL']` in shell mode. -/
inductive CommandVal
  | argv (v : List Str)
  | shellstr (s : Str)
deriving DecidableEq

/-- Python truthiness of the command (`if not command`): an empty list or
an empty string is falsy. -/
def isEmptyCmd : CommandVal → Bool
  | .argv l => l.isEmpty
  | .shellstr s => s.isEmpty

/-- Parsed command-line arguments of the agent (argparse makes shell,
connect and git a mutually exclusive group). -/
structure Args where
  command : List Str
  identity : Str
  shell : Bool
  connect : Bool
  git : Bool
deriving DecidableEq

/-- Observable outcome of one `run_agent` invocation that did not raise:
lines written to stdout, whether the agent server was started, whether it
was torn down, the spawned subprocess command (with its use_shell flag)
when one was spawned, and `run_agent`'s return value. -/
structure AgentOutcome where
  stdout : List Str
  served : Bool
  tornDown : Bool
  spawned : Option (CommandVal × Bool)
  retval : Option Int
deriving DecidableEq

/-- Identity-label resolution of `run_agent`: in git mode the label comes
from `git_host` (whose failure propagates as `ConfigError`), otherwise it
is the identity argument. -/
def labelOf (args : Args) (cfg : List (Str × Str)) : Except CoreError Str :=
  if args.git then
    match git_host cfg args.identity with
    | some l => .ok l
    | none => .error .config
  else .ok args.identity

/-- Command construction of `run_agent`, in source order: git mode prefixes
a nonempty user command with `git`; connect mode replaces the command with
`ssh_args(label) + args.command` (an identity parse failure propagates);
shell mode replaces it with the `SHELL` environment string and sets
use_shell. -/
def commandOf (args : Args) (label shellEnv : Str) :
    Except CoreError (CommandVal × Bool) :=
  let cmd0 : CommandVal :=
    .argv (if args.git && !args.command.isEmpty
           then str "git" :: args.command
           else args.command)
  let cmd1 : Except CoreError CommandVal :=
    if args.connect then
      match ssh_args label with
      | some v => .ok (.argv (v ++ args.command))
      | none => .error .format
    else .ok cmd0
  match cmd1 with
  | .error e => .error e
  | .ok c =>
    .ok (if args.shell then (.shellstr shellEnv, true) else (c, false))

/-- Tail of `run_agent` after the key export: with a falsy command it
writes the public key to stdout and returns; otherwise it serves the agent
inside `with server.serve(...)` and `try/except KeyboardInterrupt`, so the
server is torn down when the `with` block exits on either path, a child
exit code becomes the return value, and an interrupt is caught and turns
into a plain return (value `None`). -/
def agent_finish (label : Str) (cmd : CommandVal) (useShell : Bool)
    (pkf : Str → Str) (proc : ProcResult) : AgentOutcome :=
  if isEmptyCmd cmd then
    { stdout := [pkf label], served := false, tornDown := false,
      spawned := none, retval := none }
  else
    match proc with
    | .exited c =>
      { stdout := [], served := true, tornDown := true,
        spawned := some (cmd, useShell), retval := some c }
    | .interrupted =>
      { stdout := [], served := true, tornDown := true,
        spawned := some (cmd, useShell), retval := none }

/-- `run_agent` from src/trezor_agent/__main__.py, with the collaborators
abstracted: `cfg` is the local git configuration, `shellEnv` the `SHELL`
environment variable, `pkf` the key-export result for a label, and `proc`
the child-process outcome when serving. -/
def run_agent_model (args : Args) (shellEnv : Str) (cfg : List (Str × Str))
    (pkf : Str → Str) (proc : ProcResult) :
    Except CoreError AgentOutcome :=
  match labelOf args cfg with
  | .error e => .error e
  | .ok label =>
    match commandOf args label shellEnv with
    | .error e => .error e
    | .ok cu => .ok (agent_finish label cu.1 cu.2 pkf proc)

/-- Exit status the interpreter derives from the value returned by the
console entry point: `None` exits 0, an integer exits with that integer. -/
def exit_status_of : Option Int → Int
  | none => 0
  | some c => c

/-- `main` from src/trezor_agent/__main__.py: it calls
`run_agent(client.Client)` and discards the returned value, itself
returning `None`, so a completed invocation always exits with
`exit_status_of none`; an uncaught error still propagates. -/
def main_exit_status (args : Args) (shellEnv : Str)
    (cfg : List (Str × Str)) (pkf : Str → Str) (proc : ProcResult) :
    Except CoreError Int :=
  match run_agent_model args shellEnv cfg pkf proc with
  | .error e => .error e
  | .ok _ => .ok (exit_status_of none)

/-! ## Helper lemmas for the challenge decoder -/

theorem take_len_append (p r : List Nat) : (p ++ r).take p.length = p := by
  induction p with
  | nil => rfl
  | cons x xs ih => simp [List.length_cons, List.take_succ_cons, ih]

theorem drop_len_append (p r : List Nat) : (p ++ r).drop p.length = r := by
  induction p with
  | nil => rfl
  | cons x xs ih => simp [List.length_cons, List.drop_succ_cons, ih]

theorem be32_encodeLen (n : Nat) (h : n < 4294967296) :
    be32 (n / 16777216 % 256) (n / 65536 % 256) (n / 256 % 256) (n % 256)
      = n := by
  simp only [be32]
  omega

theorem encodeLen_be32 (a b c d : Nat) (ha : a < 256) (hb : b < 256)
    (hc : c < 256) (hd : d < 256) : encodeLen (be32 a b c d) = [a, b, c, d] := by
  simp only [encodeLen, be32, List.cons.injEq, and_true]
  omega

theorem be32_lt (a b c d : Nat) (ha : a < 256) (hb : b < 256) (hc : c < 256)
    (hd : d < 256) : be32 a b c d < 4294967296 := by
  simp only [be32]
  omega

theorem read_frame_frame (p r : List Nat) (h : p.length < 4294967296) :
    read_frame (frame p ++ r) = some (p, r) := by
  have hfr : frame p ++ r
      = p.length / 16777216 % 256 :: (p.length / 65536 % 256 ::
        (p.length / 256 % 256 :: (p.length % 256 :: (p ++ r)))) := by
    simp [frame, encodeLen]
  rw [hfr]
  simp only [read_frame]
  rw [be32_encodeLen p.length h]
  rw [if_pos (by simp [List.length_append])]
  rw [take_len_append, drop_len_append]

theorem read_frame_frame_nil (p : List Nat) (h : p.length < 4294967296) :
    read_frame (frame p) = some (p, []) := by
  have h2 := read_frame_frame p [] h
  simpa using h2

theorem read_frame_some (data p r : List Nat)
    (hb : ∀ x ∈ data, x < 256) (h : read_frame data = some (p, r)) :
    data = frame p ++ r ∧ p.length < 4294967296 ∧ (∀ x ∈ r, x < 256) := by
  cases data with
  | nil => simp [read_frame] at h
  | cons a t1 =>
  cases t1 with
  | nil => simp [read_frame] at h
  | cons b t2 =>
  cases t2 with
  | nil => simp [read_frame] at h
  | cons c t3 =>
  cases t3 with
  | nil => simp [read_frame] at h
  | cons d rest =>
  simp only [read_frame] at h
  by_cases hle : be32 a b c d ≤ rest.length
  · rw [if_pos hle] at h
    simp only [Option.some.injEq, Prod.mk.injEq] at h
    obtain ⟨hp, hr⟩ := h
    have ha : a < 256 := hb a (by simp)
    have hbb : b < 256 := hb b (by simp)
    have hc : c < 256 := hb c (by simp)
    have hd : d < 256 := hb d (by simp)
    have hpl : p.length = be32 a b c d := by
      rw [← hp, List.length_take]
      omega
    refine ⟨?_, ?_, ?_⟩
    · rw [frame, hpl, encodeLen_be32 a b c d ha hbb hc hd]
      rw [← hp, ← hr]
      simp [List.take_append_drop]
    · rw [hpl]
      exact be32_lt a b c d ha hbb hc hd
    · intro x hx
      rw [← hr] at hx
      have hxr : x ∈ rest := List.mem_of_mem_drop hx
      exact hb x (by simp [hxr])
  · rw [if_neg hle] at h
    exact Option.noConfusion h

theorem parse_wf (nonce user conn auth kt pk : List Nat) (m1 m2 : Nat)
    (h1 : nonce.length < 4294967296) (h2 : user.length < 4294967296)
    (h3 : conn.length < 4294967296) (h4 : auth.length < 4294967296)
    (h5 : kt.length < 4294967296) (h6 : pk.length < 4294967296) :
    parse_ssh_blob (frame nonce ++
        m1 :: (frame user ++ (frame conn ++ (frame auth ++
          m2 :: (frame kt ++ frame pk)))))
      = some ⟨nonce, user, conn, auth, kt, parse_pubkey pk⟩ := by
  have e1 := read_frame_frame nonce
    (m1 :: (frame user ++ (frame conn ++ (frame auth ++
      m2 :: (frame kt ++ frame pk))))) h1
  have e2 := read_frame_frame user
    (frame conn ++ (frame auth ++ m2 :: (frame kt ++ frame pk))) h2
  have e3 := read_frame_frame conn
    (frame auth ++ m2 :: (frame kt ++ frame pk)) h3
  have e4 := read_frame_frame auth (m2 :: (frame kt ++ frame pk)) h4
  have e5 := read_frame_frame kt (frame pk) h5
  have e6 := read_frame_frame_nil pk h6
  simp [parse_ssh_blob, e1, e2, e3, e4, e5, e6, read1]

theorem parse_some_wf (data : List Nat) (ch : Challenge)
    (hb : ∀ x ∈ data, x < 256) (h : parse_ssh_blob data = some ch) :
    WellFormedBlob data := by
  rw [parse_ssh_blob] at h
  cases h1 : read_frame data with
  | none => rw [h1] at h; exact Option.noConfusion h
  | some s1 =>
  rw [h1, Option.some_bind] at h
  obtain ⟨nonce, r1⟩ := s1
  obtain ⟨hd0, hl1, hb1⟩ := read_frame_some data nonce r1 hb h1
  cases r1 with
  | nil => simp [read1, read_frame] at h
  | cons m1 r2 =>
  simp only [read1] at h
  have hb2 : ∀ x ∈ r2, x < 256 := fun x hx =>
    hb1 x (List.mem_cons_of_mem _ hx)
  cases h2 : read_frame r2 with
  | none => rw [h2] at h; exact Option.noConfusion h
  | some s2 =>
  rw [h2, Option.some_bind] at h
  obtain ⟨user, r3⟩ := s2
  obtain ⟨hd1, hl2, hb3⟩ := read_frame_some r2 user r3 hb2 h2
  cases h3 : read_frame r3 with
  | none => rw [h3] at h; exact Option.noConfusion h
  | some s3 =>
  rw [h3, Option.some_bind] at h
  obtain ⟨conn, r4⟩ := s3
  obtain ⟨hd2, hl3, hb4⟩ := read_frame_some r3 conn r4 hb3 h3
  cases h4 : read_frame r4 with
  | none => rw [h4] at h; exact Option.noConfusion h
  | some s4 =>
  rw [h4, Option.some_bind] at h
  obtain ⟨auth, r5⟩ := s4
  obtain ⟨hd3, hl4, hb5⟩ := read_frame_some r4 auth r5 hb4 h4
  cases r5 with
  | nil => simp [read1, read_frame] at h
  | cons m2 r6 =>
  simp only [read1] at h
  have hb6 : ∀ x ∈ r6, x < 256 := fun x hx =>
    hb5 x (List.mem_cons_of_mem _ hx)
  cases h5 : read_frame r6 with
  | none => rw [h5] at h; exact Option.noConfusion h
  | some s5 =>
  rw [h5, Option.some_bind] at h
  obtain ⟨kt, r7⟩ := s5
  obtain ⟨hd4, hl5, hb7⟩ := read_frame_some r6 kt r7 hb6 h5
  cases h6 : read_frame r7 with
  | none => rw [h6] at h; exact Option.noConfusion h
  | some s6 =>
  rw [h6, Option.some_bind] at h
  obtain ⟨pk, r8⟩ := s6
  obtain ⟨hd5, hl6, hb8⟩ := read_frame_some r7 pk r8 hb7 h6
  by_cases h8 : r8 = ([] : List Nat)
  · refine ⟨nonce, m1, user, conn, auth, m2, kt, pk,
      hl1, hl2, hl3, hl4, hl5, hl6, ?_⟩
    rw [hd0, hd1, hd2, hd3, hd4, hd5, h8]
    simp
  · rw [if_neg h8] at h
    exact Option.noConfusion h

/-! ## Claims about the challenge decoder -/

/-- Claim C1: for every byte blob, the decoder fails (raising the spec's
ProtocolError) exactly when the blob is not a well-formed concatenation of
the six length-prefixed frames and the two single marker bytes with zero
trailing bytes — that is, exactly when a declared frame length or the
length header itself overruns the remaining bytes, a marker byte position
is missing, or bytes are left over; it never returns a partial Challenge. -/
theorem claim_C1_decode_fails_iff_malformed (data : List Nat)
    (hb : ∀ x ∈ data, x < 256) :
    parse_ssh_blob data = none ↔ ¬ WellFormedBlob data := by
  constructor
  · intro hn hwf
    obtain ⟨nonce, m1, user, conn, auth, m2, kt, pk,
      b1, b2, b3, b4, b5, b6, hd⟩ := hwf
    rw [hd, parse_wf nonce user conn auth kt pk m1 m2 b1 b2 b3 b4 b5 b6]
      at hn
    exact Option.noConfusion hn
  · intro hnwf
    cases hp : parse_ssh_blob data with
    | none => rfl
    | some ch => exact absurd (parse_some_wf data ch hb hp) hnwf

/-- Witness for Claim C1: the byte hypothesis holds at the empty blob, and
the theorem applies there. -/
theorem claim_C1_witness :
    (∀ x ∈ ([] : List Nat), x < 256) ∧
    (parse_ssh_blob [] = none ↔ ¬ WellFormedBlob []) :=
  ⟨by simp, claim_C1_decode_fails_iff_malformed [] (by simp)⟩

/-- Claim C2: every well-formed challenge blob — frames concatenated in the
fixed order nonce, [1-byte marker], user, connection-id, auth-method,
[1-byte marker], key-type, public-key-blob with zero trailing bytes —
decodes to a Challenge whose nonce, user, conn, auth and key_type fields
equal the corresponding frame payloads byte-for-byte, in that order. -/
theorem claim_C2_decode_roundtrip (nonce user conn auth kt pk : List Nat)
    (m1 m2 : Nat)
    (h1 : nonce.length < 4294967296) (h2 : user.length < 4294967296)
    (h3 : conn.length < 4294967296) (h4 : auth.length < 4294967296)
    (h5 : kt.length < 4294967296) (h6 : pk.length < 4294967296) :
    parse_ssh_blob (frame nonce ++
        m1 :: (frame user ++ (frame conn ++ (frame auth ++
          m2 :: (frame kt ++ frame pk)))))
      = some ⟨nonce, user, conn, auth, kt, parse_pubkey pk⟩ :=
  parse_wf nonce user conn auth kt pk m1 m2 h1 h2 h3 h4 h5 h6

/-- Witness for Claim C2: a concrete well-formed blob with the marker bytes
50 and 1 decodes to exactly its frame payloads. -/
theorem claim_C2_witness :
    parse_ssh_blob (frame [10] ++
        50 :: (frame [11] ++ (frame [12] ++ (frame [13] ++
          1 :: (frame [14] ++ frame [15, 16])))))
      = some ⟨[10], [11], [12], [13], [14], parse_pubkey [15, 16]⟩ :=
  claim_C2_decode_roundtrip [10] [11] [12] [13] [14] [15, 16] 50 1
    (by decide) (by decide) (by decide) (by decide) (by decide) (by decide)

/-! ## Claims about the client/orchestrator interface -/

/-- Claim C3 (code bug): the claim says `sign_ssh_challenge` passes the
orchestrator's wall-clock `visual` string on to the device sign operation.
In the source, the orchestrator's call
`conn.sign_ssh_challenge(label=..., blob=..., visual=...)` does not resolve
against `Client.sign_ssh_challenge(self, blob)` (a TypeError), the client
passes only `blob=blob` to `device.sign` — no `visual` keyword exists in
that call — and the signature returned depends on the blob alone. -/
theorem claim_C3_visual_never_reaches_device :
    callResolves clientInterface
      ("sign_ssh_challenge", ["label", "blob", "visual"]) = false ∧
    deviceSignCallKwargs.contains "visual" = false ∧
    sign_ssh_challenge (fun b => b)
      (frame [10] ++ 50 :: (frame [11] ++ (frame [12] ++ (frame [13] ++
        1 :: (frame [14] ++ frame [15, 16])))))
      = some (frame [10] ++ 50 :: (frame [11] ++ (frame [12] ++ (frame [13]
        ++ 1 :: (frame [14] ++ frame [15, 16]))))) :=
  ⟨by decide, by decide, by decide⟩

/-- Claim C4 (code bug): the claim says every orchestrator call into the
client layer resolves to a defined member with a compatible signature.  In
the source none of the four do: `Client.__init__` has no `curve` parameter,
`get_public_key` accepts no `label`, `sign_ssh_challenge` accepts neither
`label` nor `visual`, and `string_to_identity` is not defined in the client
module at all. -/
theorem claim_C4_interface_mismatch :
    orchestratorCalls.all (callResolves clientInterface) = false ∧
    orchestratorCalls.all
      (fun c => !(callResolves clientInterface c)) = true := by
  decide

/-! ## Claim about Identity immutability -/

/-- Counterexample for Claim C5: constructing a Client around a device
whose identity has proto `"http"` mutates the identity — the claim that no
field is modified is false at this input. -/
theorem claim_C5_counterexample :
    clientInitIdentity
        ⟨str "http", none, str "example.com", none, none⟩
      ≠ ⟨str "http", none, str "example.com", none, none⟩ := by
  decide

/-- Claim C5 as amended: constructing a Client sets the identity's proto
field to `"ssh"` (the one mutation, from
`device.identity_dict['proto'] = 'ssh'`) and leaves user, host, port and
path unchanged; no other core operation modifies the identity. -/
theorem claim_C5_client_init_touches_only_proto (d : Identity) :
    (clientInitIdentity d).proto = str "ssh" ∧
    (clientInitIdentity d).user = d.user ∧
    (clientInitIdentity d).host = d.host ∧
    (clientInitIdentity d).port = d.port ∧
    (clientInitIdentity d).path = d.path :=
  ⟨rfl, rfl, rfl, rfl, rfl⟩

/-! ## Helper lemma for first-occurrence splitting -/

theorem splitFirstChar_append (c : Char) (a b : Str) (h : c ∉ a) :
    splitFirstChar c (a ++ c :: b) = some (a, b) := by
  induction a with
  | nil => simp [splitFirstChar]
  | cons x xs ih =>
    have hx : ¬ x = c := by
      intro e
      exact h (by simp [e])
    have h2 : c ∉ xs := fun hm => h (List.mem_cons_of_mem _ hm)
    simp [splitFirstChar, hx, ih h2]

/-! ## Claim about git remote resolution -/

/-- Claim C6: over a local git configuration, `git_host` with exactly one
matching `remote.<name>.url` entry of the form `user@host:path` returns
`ssh://user@host/path`, and with zero or two or more matching entries it
fails (raising `ValueError`, the spec's `ConfigError`). -/
theorem claim_C6_git_host :
    (∀ (cfg : List (Str × Str)) (name u user host path : Str),
      gitMatches cfg name = [u] →
      pyStrip u = u →
      u = user ++ '@' :: (host ++ ':' :: path) →
      '@' ∉ user → ':' ∉ host →
      git_host cfg name
        = some (str "ssh://" ++ user ++ '@' :: host ++ '/' :: path)) ∧
    (∀ (cfg : List (Str × Str)) (name : Str),
      (gitMatches cfg name).length ≠ 1 → git_host cfg name = none) := by
  constructor
  · intro cfg name u user host path hm hs hu ha hc
    subst hu
    have e1 := splitFirstChar_append '@' user (host ++ ':' :: path) ha
    have e2 := splitFirstChar_append ':' host path hc
    simp [git_host, hm, hs, e1, e2]
  · intro cfg name h
    cases hg : gitMatches cfg name with
    | nil => simp [git_host, hg]
    | cons a t =>
      cases t with
      | nil => rw [hg] at h; simp at h
      | cons b t2 => simp [git_host, hg]

/-- Witness for Claim C6: a configuration with the single entry
`remote.origin.url = git@github.com:sp4ke/trezor-agent` resolves to
`ssh://git@github.com/sp4ke/trezor-agent`, and an empty configuration
fails. -/
theorem claim_C6_witness :
    git_host [(str "remote.origin.url", str "git@github.com:sp4ke/trezor-agent")]
        (str "origin")
      = some (str "ssh://" ++ str "git" ++ '@' :: str "github.com" ++
          '/' :: str "sp4ke/trezor-agent") ∧
    git_host [] (str "origin") = none :=
  ⟨claim_C6_git_host.1
      [(str "remote.origin.url", str "git@github.com:sp4ke/trezor-agent")]
      (str "origin") (str "git@github.com:sp4ke/trezor-agent")
      (str "git") (str "github.com") (str "sp4ke/trezor-agent")
      (by decide) (by decide) (by decide) (by decide) (by decide),
   claim_C6_git_host.2 [] (str "origin") (by decide)⟩

/-! ## Claims about the orchestrator -/

/-- Claim C7 (code bug): the claim says the program's exit status equals
the child's exit status.  In the source `run_agent` does return the child's
status (here 7), but `main` calls `run_agent(client.Client)` and discards
the returned value, returning `None`, so the invocation exits 0, not 7. -/
theorem claim_C7_exit_status_dropped :
    run_agent_model ⟨[str "ls"], str "x", false, false, false⟩
        (str "/bin/sh") [] (fun _ => str "PK") (.exited 7)
      = .ok ⟨[], true, true, some (.argv [str "ls"], false), some 7⟩ ∧
    main_exit_status ⟨[str "ls"], str "x", false, false, false⟩
        (str "/bin/sh") [] (fun _ => str "PK") (.exited 7) = .ok 0 ∧
    (0 : Int) ≠ 7 :=
  ⟨rfl, rfl, by decide⟩

/-- Claim C8: in connect mode with identity
`ssh://alice@example.com:2222/repo` and command `["ls"]` the spawned vector
is exactly `["ssh", "-p", "2222", "-l", "alice", "example.com", "ls"]`;
and in general, for any parsed identity, an absent user omits the `-l`
flag and an absent port omits `-p` from the `ssh` argument vector. -/
theorem claim_C8_ssh_command :
    (∀ (shellEnv : Str) (cfg : List (Str × Str)) (pkf : Str → Str) (c : Int),
      run_agent_model
          ⟨[str "ls"], str "ssh://alice@example.com:2222/repo",
           false, true, false⟩ shellEnv cfg pkf (.exited c)
        = .ok ⟨[], true, true,
            some (.argv [str "ssh", str "-p", str "2222", str "-l",
              str "alice", str "example.com", str "ls"], false), some c⟩) ∧
    (∀ (label : Str) (idn : Identity),
      string_to_identity label = some idn →
      (idn.user = none → idn.port = none →
        ssh_args label = some [str "ssh", idn.host]) ∧
      (∀ p, idn.user = none → idn.port = some p →
        ssh_args label = some [str "ssh", str "-p", p, idn.host]) ∧
      (∀ u, idn.user = some u → idn.port = none →
        ssh_args label = some [str "ssh", str "-l", u, idn.host])) := by
  constructor
  · intro shellEnv cfg pkf c
    rfl
  · intro label idn h
    refine ⟨?_, ?_, ?_⟩
    · intro hu hp
      simp [ssh_args, h, hu, hp]
    · intro p hu hp
      simp [ssh_args, h, hu, hp]
    · intro u hu hp
      simp [ssh_args, h, hu, hp]

/-- Witness for Claim C8: the identity `ssh://example.com` parses with no
user and no port, and its `ssh` vector omits both `-l` and `-p`. -/
theorem claim_C8_witness :
    ssh_args (str "ssh://example.com") = some [str "ssh", str "example.com"] :=
  (claim_C8_ssh_command.2 (str "ssh://example.com")
      ⟨str "ssh", none, str "example.com", none, none⟩ (by decide)).1 rfl rfl

/-- Claim C9: with no sub-command and no mode flags, `run_agent` writes
exactly the exported public-key line to stdout and returns, starting no
agent server and no subprocess. -/
theorem claim_C9_print_only (ident shellEnv : Str) (cfg : List (Str × Str))
    (pkf : Str → Str) (proc : ProcResult) :
    run_agent_model ⟨[], ident, false, false, false⟩ shellEnv cfg pkf proc
      = .ok ⟨[pkf ident], false, false, none, none⟩ :=
  rfl

/-- Claim C10: on every exit path from the agent-serving branch the server
is torn down, and an interrupt while serving is caught and turned into a
plain return (`run_agent` returns `None`), not a propagated error. -/
theorem claim_C10_teardown_and_clean_interrupt (args : Args)
    (shellEnv : Str) (cfg : List (Str × Str)) (pkf : Str → Str)
    (proc : ProcResult) (out : AgentOutcome)
    (h : run_agent_model args shellEnv cfg pkf proc = .ok out)
    (hs : out.served = true) :
    out.tornDown = true ∧ (proc = .interrupted → out.retval = none) := by
  unfold run_agent_model at h
  split at h
  case _ => exact Except.noConfusion h
  case _ label hl =>
  split at h
  case _ => exact Except.noConfusion h
  case _ cu hc =>
  have hout : out = agent_finish label cu.1 cu.2 pkf proc := by
    injection h with h2
    exact h2.symm
  subst hout
  unfold agent_finish at hs ⊢
  by_cases he : isEmptyCmd cu.1 = true
  · rw [if_pos he] at hs
    simp at hs
  · rw [if_neg he] at hs ⊢
    cases proc with
    | exited c => exact ⟨rfl, fun hcon => ProcResult.noConfusion hcon⟩
    | interrupted => exact ⟨rfl, fun _ => rfl⟩

/-- Witness for Claim C10: a concrete serving invocation interrupted while
serving satisfies the theorem's hypotheses, and its outcome has the server
torn down and a `None` return value. -/
theorem claim_C10_witness :
    (AgentOutcome.tornDown
        ⟨[], true, true, some (.argv [str "ls"], false), none⟩ = true) ∧
    (ProcResult.interrupted = ProcResult.interrupted →
      AgentOutcome.retval
        ⟨[], true, true, some (.argv [str "ls"], false), none⟩ = none) :=
  claim_C10_teardown_and_clean_interrupt
    ⟨[str "ls"], str "x", false, false, false⟩ (str "/bin/sh") []
    (fun _ => str "PK") .interrupted
    ⟨[], true, true, some (.argv [str "ls"], false), none⟩ rfl rfl
